import Mathlib

/-!
Verification development for the stash-scrapers repository (two Python
source files: `scrapers/MeanBitches/MeanBitches.py` and
`scrapers/performer-image-scraper/performer-image-scraper.py`).

The Python code is shallowly embedded: pure functions become Lean
functions, fallible operations return `Except PyErr`, network and HTML
parsing are abstracted into explicit parameters (a `Site` function for
search pages, a `Page` value for a fetched document), machine-level
details irrelevant to the claims (full Unicode tables, the complete HTML
entity list) are modelled on the subsets the code exercises, as noted at
each definition.
-/

/-- Python exception values that the scraper code can raise or catch. -/
inductive PyErr
  | parseError   -- BeautifulSoup / lxml failure on malformed content
  | valueError   -- e.g. datetime.strptime failure
  | netError     -- requests / HTTP failure raised by fetch_html
  | nameError    -- unbound global (NameError)
  deriving DecidableEq, Repr

/-- Models a Python `try: ... except Exception: ...` block around a body
that computes an optional value: an exception degrades to the fallback. -/
def pyTryD {α : Type} (fallback : α) (body : Except PyErr α) : Except PyErr α :=
  match body with
  | .ok v => .ok v
  | .error _ => .ok fallback

/-- Python string truthiness filter: `some s` survives only when `s` is
non-empty, mirroring `if s:`. -/
def optTruthy (o : Option String) : Option String :=
  match o with
  | some s => if s = "" then none else some s
  | none => none

/-- Python whitespace test for `str.strip` (ASCII whitespace subset of the
Unicode whitespace Python strips). -/
def pySpace (c : Char) : Bool := c = ' ' ∨ c = '\t' ∨ c = '\n' ∨ c = '\r'

/-- Models Python `str.strip()`: drop leading and trailing whitespace. -/
def pyStrip (s : String) : String :=
  String.mk (((s.data.dropWhile pySpace).reverse.dropWhile pySpace).reverse)

/-- Models Python `str.startswith(pre)`. -/
def pyStartsWith (s pre : String) : Bool := pre.data.isPrefixOf s.data

/-- Models Python `str.endswith(suf)`. -/
def pyEndsWith (s suf : String) : Bool := suf.data.isSuffixOf s.data

/-- Substring scan over character lists, used for Python `needle in hay`. -/
def listContainsSub (needle : List Char) : List Char → Bool
  | [] => needle.isPrefixOf []
  | c :: rest => needle.isPrefixOf (c :: rest) || listContainsSub needle rest

/-- Models Python `needle in hay` on strings. -/
def pyContains (hay needle : String) : Bool := listContainsSub needle.data hay.data

/-- Models Python `str.lower()` (ASCII subset of Unicode lowercasing). -/
def pyLower (s : String) : String := String.mk (s.data.map Char.toLower)

/-- Decimal value of a digit string (callers check `isDigit` first). -/
def digitsVal (s : String) : Nat := s.data.foldl (fun a c => a * 10 + (c.toNat - 48)) 0

/-- Split a character list at slashes, as `str.split("/")` does. -/
def splitSlash : List Char → List String
  | [] => [""]
  | '/' :: rest => "" :: splitSlash rest
  | c :: rest =>
    match splitSlash rest with
    | s :: ss => String.mk (c :: s.data) :: ss
    | [] => [String.mk [c]]

/-- All-digit test for a non-empty string. -/
def isDigits (s : String) : Bool := s ≠ "" && s.data.all Char.isDigit

/-- Zero-pad a number to two decimal digits, as `strftime` `"%m"`/`"%d"` do. -/
def pad2 (n : Nat) : String := if n < 10 then "0" ++ toString n else toString n

/-- Zero-pad a number to four decimal digits, as `strftime` `"%Y"` is
documented to do. -/
def pad4 (n : Nat) : String :=
  if n < 10 then "000" ++ toString n
  else if n < 100 then "00" ++ toString n
  else if n < 1000 then "0" ++ toString n
  else toString n

/-- Gregorian leap-year rule used by `datetime`. -/
def leapYear (y : Nat) : Bool := y % 4 = 0 && (y % 100 ≠ 0 || y % 400 = 0)

/-- Days in a month, as validated by the `datetime` constructor. -/
def daysInMonth (y m : Nat) : Nat :=
  if m = 2 then (if leapYear y then 29 else 28)
  else if m = 4 ∨ m = 6 ∨ m = 9 ∨ m = 11 then 30
  else 31

/-- Models `datetime.strptime(s, "%m/%d/%Y")`: month and day of one or two
digits in range, a four-digit year, and calendar validity (including the
year-at-least-one check of the `datetime` constructor). Returns
`(month, day, year)`, or `none` where Python raises `ValueError`. -/
def strptime_mdY (s : String) : Option (Nat × Nat × Nat) :=
  match splitSlash s.data with
  | [ms, ds, ys] =>
    if isDigits ms && isDigits ds && isDigits ys
        && ms.data.length ≤ 2 && ds.data.length ≤ 2 && ys.data.length = 4 then
      let m := digitsVal ms
      let d := digitsVal ds
      let y := digitsVal ys
      if 1 ≤ m && m ≤ 12 && 1 ≤ d && d ≤ daysInMonth y m && 1 ≤ y then
        some (m, d, y)
      else none
    else none
  | _ => none

/-- Models `datetime.strftime("%Y-%m-%d")` on a (year, month, day). -/
def strftime_Ymd (y m d : Nat) : String := pad4 y ++ "-" ++ pad2 m ++ "-" ++ pad2 d

/-- Take exactly `n` ASCII digits off the front of a character list. -/
def takeDigits : Nat → List Char → Option (List Char × List Char)
  | 0, l => some ([], l)
  | n + 1, c :: rest =>
    if c.isDigit then (takeDigits n rest).map (fun p => (c :: p.1, p.2)) else none
  | _ + 1, [] => none

/-- Match `g` digits followed by a literal slash. -/
def matchNumSlash (l : List Char) (g : Nat) : Option (List Char × List Char) := do
  let (d, r) ← takeDigits g l
  match r with
  | '/' :: r2 => some (d, r2)
  | _ => none

/-- One backtracking alternative of the regex `\d{1,2}/\d{1,2}/\d{4}`
anchored at the start of `l`, with group widths `g1` and `g2`. -/
def matchDateWith (l : List Char) (g1 g2 : Nat) : Option (List Char) := do
  let (d1, r1) ← matchNumSlash l g1
  let (d2, r2) ← matchNumSlash r1 g2
  let (d3, _) ← takeDigits 4 r2
  some (d1 ++ '/' :: d2 ++ '/' :: d3)

/-- Models `re.match` of `\d{1,2}/\d{1,2}/\d{4}` at the start of `l`:
greedy `{1,2}` groups tried widest first, as the backtracking engine does. -/
def matchDateAt (l : List Char) : Option (List Char) :=
  (matchDateWith l 2 2) <|> (matchDateWith l 2 1) <|>
    (matchDateWith l 1 2) <|> (matchDateWith l 1 1)

/-- Models `re.search` of `(\d{1,2}/\d{1,2}/\d{4})`: the leftmost match. -/
def searchDate : List Char → Option String
  | [] => none
  | c :: rest =>
    match matchDateAt (c :: rest) with
    | some tok => some (String.mk tok)
    | none => searchDate rest

/-- Decode one HTML character reference name, on the subset of Python
`html.unescape` the scraped pages use: the five XML named entities and
decimal/hexadecimal numeric references. -/
def decodeEntity (name : List Char) : Option Char :=
  if name = "amp".data then some '&'
  else if name = "lt".data then some '<'
  else if name = "gt".data then some '>'
  else if name = "quot".data then some '"'
  else if name = "apos".data then some (Char.ofNat 39)
  else
    match name with
    | '#' :: 'x' :: ds =>
      if ds ≠ [] && ds.all (fun c => c.isDigit || ('a' ≤ c && c ≤ 'f') || ('A' ≤ c && c ≤ 'F')) then
        let v := ds.foldl (fun a c =>
          a * 16 + (if c.isDigit then c.toNat - 48
                    else if 'a' ≤ c && c ≤ 'f' then c.toNat - 87 else c.toNat - 55)) 0
        if v.isValidChar then some (Char.ofNat v) else none
      else none
    | '#' :: ds =>
      if ds ≠ [] && ds.all Char.isDigit then
        let v := ds.foldl (fun a c => a * 10 + (c.toNat - 48)) 0
        if v.isValidChar then some (Char.ofNat v) else none
      else none
    | _ => none

/-- Fuelled scanner for `html.unescape`: a `&name;` reference that decodes
is replaced, anything else is copied through unchanged. Fuel equal to the
list length always suffices since every step consumes at least one char. -/
def htmlUnescapeAux : Nat → List Char → List Char
  | 0, l => l
  | fuel + 1, l =>
    match l with
    | [] => []
    | '&' :: rest =>
      let name := rest.takeWhile (fun c => c ≠ ';' ∧ c ≠ '&')
      if (rest.drop name.length).head? = some ';' then
        match decodeEntity name with
        | some ch => ch :: htmlUnescapeAux fuel (rest.drop (name.length + 1))
        | none => '&' :: htmlUnescapeAux fuel rest
      else '&' :: htmlUnescapeAux fuel rest
    | c :: rest => c :: htmlUnescapeAux fuel rest

/-- Models Python `html.unescape` (entity subset noted at `decodeEntity`). -/
def html_unescape (s : String) : String :=
  String.mk (htmlUnescapeAux s.data.length s.data)

/-- Base URL constant from MeanBitches.py. -/
def BASE_URL : String := "https://megasite.meanworld.com"

/-- `normalize_url`: relative (slash-leading) URLs get the host prefix,
empty or whitespace-only input yields `None`. -/
def normalize_url (url : String) : Option String :=
  if url = "" then none
  else if pyStartsWith (pyStrip url) "/" then some (BASE_URL ++ pyStrip url)
  else if pyStrip url = "" then none
  else some (pyStrip url)

/-- Last path component, as `pathlib.Path(...).name` (empty components
from doubled or trailing slashes are dropped). -/
def pathName (s : String) : String :=
  (((splitSlash s.data).filter (fun p => p ≠ "")).getLast?).getD ""

/-- Index of the last dot in a character list, if any. -/
def lastDotIdx (l : List Char) : Option Nat :=
  ((List.range l.length).filter (fun i => l.getD i ' ' = '.')).getLast?

/-- `pathlib.Path(...).stem`: the name without its suffix; the dot must be
neither the first nor the last character of the name to count as a suffix
separator. -/
def pathStem (s : String) : String :=
  let nm := pathName s
  match lastDotIdx nm.data with
  | some i => if 0 < i ∧ i + 1 < nm.data.length then String.mk (nm.data.take i) else nm
  | none => nm

/-- `extract_title_from_filename`: strip, then `Path(...).stem`, empty
results become `None`. -/
def extract_title_from_filename (filename : String) : Option String :=
  if filename = "" then none
  else
    let f := pyStrip filename
    if f = "" then none
    else
      let title := pathStem f
      if title = "" then none else some title

/-- An anchor tag as the extractors see it: href attribute and
whitespace-stripped text. -/
structure SceneLink where
  href : String
  text : String
  deriving DecidableEq, Repr

/-- The parsed-document abstraction of a fetched scene page: each field
holds exactly what the corresponding BeautifulSoup query of
MeanBitches.py would return on the document. -/
structure ParsedDoc where
  /-- the raw html string (target of the bare-regex extractors) -/
  raw : String := ""
  /-- data-title attribute of the first `div` with id `packageinfo_N` -/
  packageinfoDataTitle : Option String := none
  /-- stripped text of the first `p` inside a `vidImgContent` div -/
  vidImgContentP : Option String := none
  /-- (href, stripped text) of every `a.link_bright`, in document order -/
  linkBrightLinks : List SceneLink := []
  /-- stripped texts of every `a` with class matching `link_bright.*infolink` -/
  infolinkNames : List String := []
  /-- content attribute of the `og:image` meta tag, when that tag exists -/
  ogImageContent : Option String := none
  /-- src attribute of the first `img.dvd_preview_thumb`, when it exists -/
  previewThumbSrc : Option String := none
  /-- stripped texts of every `li` with class matching `text_med` -/
  textMedLis : List String := []
  /-- stripped texts of `a.border_btn` links in the blogTags div, `none` when no such div -/
  blogTagTexts : Option (List String) := none
  deriving DecidableEq, Repr

/-- A fetched document: either content whose BeautifulSoup parse raises,
or a parsed document. -/
inductive Page
  | malformed (raw : String)
  | parsed (d : ParsedDoc)
  deriving DecidableEq, Repr

/-- The raw text of the fetched document. -/
def Page.raw : Page → String
  | .malformed r => r
  | .parsed d => d.raw

/-- `BeautifulSoup(html_content, "lxml")`: raises on malformed content. -/
def soupParse : Page → Except PyErr ParsedDoc
  | .malformed _ => .error .parseError
  | .parsed d => .ok d

/-- `extract_title`: data-title attribute of the packageinfo div,
entity-decoded; any internal error degrades to `None`. -/
def extract_title (p : Page) : Except PyErr (Option String) :=
  pyTryD none (do
    let d ← soupParse p
    match d.packageinfoDataTitle with
    | some t => if t ≠ "" then return some (html_unescape t) else return none
    | none => return none)

/-- `extract_details`: text of the first paragraph of the vidImgContent
div, entity-decoded. -/
def extract_details (p : Page) : Except PyErr (Option String) :=
  pyTryD none (do
    let d ← soupParse p
    match d.vidImgContentP with
    | some txt => return some (html_unescape txt)
    | none => return none)

/-- `extract_studio_name`: text of the first `link_bright` anchor whose
href is relative (starts with a slash). -/
def extract_studio_name (p : Page) : Except PyErr (Option String) :=
  pyTryD none (do
    let d ← soupParse p
    match d.linkBrightLinks.find? (fun l => pyStartsWith l.href "/") with
    | some l => return some (html_unescape l.text)
    | none => return none)

/-- `extract_performers`: entity-decoded names of all infolink anchors
with non-empty text. -/
def extract_performers (p : Page) : Except PyErr (List String) :=
  pyTryD [] (do
    let d ← soupParse p
    return (d.infolinkNames.filter (fun n => n ≠ "")).map html_unescape)

/-- The per-`li` loop of `extract_date`: the first list item containing a
date-shaped token decides the result; a token `strptime` rejects is
returned raw rather than dropped. -/
def dateFromLis : List String → Option String
  | [] => none
  | li :: rest =>
    match searchDate li.data with
    | some tok =>
      some (match strptime_mdY tok with
            | some (m, d, y) => strftime_Ymd y m d
            | none => tok)
    | none => dateFromLis rest

/-- `extract_date`: scan the `text_med` list items for a
`\d{1,2}/\d{1,2}/\d{4}` token. -/
def extract_date (p : Page) : Except PyErr (Option String) :=
  pyTryD none (do
    let d ← soupParse p
    return dateFromLis d.textMedLis)

/-- `extract_tags`: entity-decoded texts of the border_btn links of the
blogTags div. -/
def extract_tags (p : Page) : Except PyErr (List String) :=
  pyTryD [] (do
    let d ← soupParse p
    match d.blogTagTexts with
    | some texts => return (texts.filter (fun t => t ≠ "")).map html_unescape
    | none => return [])

/-- Leftmost match of `/content//upload/([^/]+)/` on the raw html: the
group is the maximal slash-free run after the literal prefix, which must
be non-empty and followed by a slash. -/
def uploadCodeFind : List Char → Option String
  | [] => none
  | c :: rest =>
    if "/content//upload/".data.isPrefixOf (c :: rest) then
      let after := (c :: rest).drop "/content//upload/".data.length
      let seg := after.takeWhile (fun ch => ch ≠ '/')
      if seg ≠ [] ∧ (after.drop seg.length).head? = some '/' then some (String.mk seg)
      else uploadCodeFind rest
    else uploadCodeFind rest

/-- `extract_studio_code`: bare regex on the raw html (no BeautifulSoup
parse, so it works even on content the parser rejects). -/
def extract_studio_code (p : Page) : Except PyErr (Option String) :=
  pyTryD none (.ok (uploadCodeFind p.raw.data))

/-- Attributes of an `img.update_thumb` tag in a search result container. -/
structure ImgThumbAttrs where
  src0_2x : Option String := none
  src0_1x : Option String := none
  src : Option String := none
  deriving DecidableEq, Repr

/-- Attributes of a `video.update_thumb` tag in a search result container. -/
structure VideoThumbAttrs where
  poster_2x : Option String := none
  poster_1x : Option String := none
  poster : Option String := none
  deriving DecidableEq, Repr

/-- One `latestUpdateB` container of a search results page, with the
fields the per-container BeautifulSoup queries of MeanBitches.py read. -/
structure SearchContainer where
  /-- class list contains `latestUpdateBinfo` -/
  isInfo : Bool := false
  /-- anchors whose href matches the `/scenes/..._vids.html` pattern -/
  sceneLinks : List SceneLink := []
  imgThumb : Option ImgThumbAttrs := none
  videoThumb : Option VideoThumbAttrs := none
  /-- text of the first anchor with a `/models/` href -/
  perfLinkText : Option String := none
  /-- text of the first anchor with a `^/[^/]+/$` href -/
  studioLinkText : Option String := none
  /-- stripped texts of `li.text_med` items -/
  textMedLis : List String := []
  deriving DecidableEq, Repr

/-- A scene fragment assembled from a search results container. -/
structure SearchResult where
  title : String
  url : String
  image : Option String := none
  performers : Option (List String) := none
  studio : Option String := none
  date : Option String := none
  deriving DecidableEq, Repr

/-- Python `a or b` on optional strings: the first truthy value wins. -/
def pyOrStr (a b : Option String) : Option String :=
  match a with
  | some s => if s ≠ "" then some s else b
  | none => b

/-- The date loop of `extract_search_result_data`: `re.match` anchors the
pattern at the start of the text, and `strptime` is then applied to the
whole text, so trailing garbage makes the parse fail and the loop move on. -/
def searchResultDate : List String → Option String
  | [] => none
  | li :: rest =>
    if (matchDateAt li.data).isSome then
      match strptime_mdY li with
      | some (m, d, y) => some (strftime_Ymd y m d)
      | none => searchResultDate rest
    else searchResultDate rest

/-- `extract_search_result_data`: scene data assembled from one search
container without scraping the scene page. -/
def extract_search_result_data (c : SearchContainer) (scene_url title : String) : SearchResult :=
  let base : SearchResult := { title := html_unescape (pyStrip title), url := scene_url }
  let withImg :=
    match c.imgThumb with
    | some a =>
      match pyOrStr a.src0_2x (pyOrStr a.src0_1x a.src) with
      | some u =>
        if u ≠ "" then
          let u := pyStrip u
          { base with image := some ((normalize_url u).getD u) }
        else base
      | none => base
    | none =>
      match c.videoThumb with
      | some a =>
        match pyOrStr a.poster_2x (pyOrStr a.poster_1x a.poster) with
        | some u =>
          if u ≠ "" then
            let u := pyStrip u
            { base with image := some ((normalize_url u).getD u) }
          else base
        | none => base
      | none => base
  let withPerf :=
    match c.perfLinkText with
    | some n => { withImg with performers := some [n] }
    | none => withImg
  let withStudio :=
    match c.studioLinkText with
    | some n => { withPerf with studio := some n }
    | none => withPerf
  match searchResultDate c.textMedLis with
  | some dt => { withStudio with date := some dt }
  | none => withStudio

/-- The per-container step of `_fetch_and_parse_search_page`: skip info
containers, pick the first scene link with non-empty text, flag an exact
(entity-decoded, case-insensitive) title match against the search name. -/
def containerToResult (c : SearchContainer) (search_name : String) :
    Option (SearchResult × Bool) :=
  if c.isInfo then none
  else
    match c.sceneLinks.find? (fun l => l.text ≠ "") with
    | none => none
    | some link =>
      if link.href = "" ∨ link.text = "" then none
      else
        some (extract_search_result_data c link.href link.text,
              decide (pyLower (html_unescape link.text) = pyLower search_name))

/-- The query parameters of one search request: `search.php?query=...`,
with the page parameter added only past page one. -/
structure FetchParams where
  query : String
  page : Option Nat
  deriving DecidableEq, Repr

/-- Parameter construction of `_fetch_and_parse_search_page`. -/
def mkSearchParams (query : String) (page : Nat) : FetchParams :=
  { query := query, page := if page > 1 then some page else none }

/-- The remote search endpoint, abstracted: fetching and parsing a search
page yields its `latestUpdateB` containers, or a fetch error. -/
abbrev Site : Type := FetchParams → Except PyErr (List SearchContainer)

/-- `_fetch_and_parse_search_page`: fetch one page (errors degrade to an
empty result), convert each container, OR together the exact-match flags. -/
def _fetch_and_parse_search_page (site : Site) (query : String) (page : Nat)
    (search_name : String) : List SearchResult × Bool :=
  match site (mkSearchParams query page) with
  | .error _ => ([], false)
  | .ok containers =>
    if containers.isEmpty then ([], false)
    else
      containers.foldl
        (fun acc c =>
          match containerToResult c search_name with
          | none => acc
          | some (r, ex) => (acc.1 ++ [r], acc.2 || ex))
        ([], false)

/-- The paging loop of `_search`, instrumented with the list of issued
requests; structural recursion on the number of pages left in the
`range(1, max_pages + 1)` loop. -/
def _searchLoop (site : Site) (query name : String) :
    Nat → Nat → List SearchResult × List FetchParams
  | _, 0 => ([], [])
  | page, left + 1 =>
    let pr := (_fetch_and_parse_search_page site query page name).1
    let ex := (_fetch_and_parse_search_page site query page name).2
    let here := mkSearchParams query page
    if ex then (pr, [here])
    else if pr.isEmpty then (pr, [here])
    else (pr ++ (_searchLoop site query name (page + 1) left).1,
          here :: (_searchLoop site query name (page + 1) left).2)

/-- `_search`: concatenated per-page results. -/
def _search (site : Site) (query name : String) (max_pages : Nat) : List SearchResult :=
  (_searchLoop site query name 1 max_pages).1

/-- The requests `_search` issues, in order. -/
def _searchRequests (site : Site) (query name : String) (max_pages : Nat) : List FetchParams :=
  (_searchLoop site query name 1 max_pages).2

/-- difflib `SequenceMatcher.__chain_b`: the ascending index list of a
character in `b`; with `isjunk=None` and autojunk on, characters that are
"popular" in a `b` of length at least 200 are dropped. -/
def seqB2j (b : List Char) (c : Char) : List Nat :=
  let idxs := (List.range b.length).filter (fun j => b.getD j ' ' = c)
  if b.length ≥ 200 ∧ idxs.length > b.length / 100 + 1 then [] else idxs

/-- Lookup in the `j2len` mapping (0 when absent). -/
def j2lenGet (m : List (Nat × Nat)) (j : Nat) : Nat :=
  ((m.find? (fun p => p.1 = j)).map (fun p => p.2)).getD 0

/-- The inner `for j in b2j.get(a[i], nothing)` loop of
`find_longest_match`: skip below `blo`, break at `bhi`, extend runs via
the previous row's `j2len`, keep the first strictly-largest block. -/
def flmInner (blo bhi i : Nat) (prev : List (Nat × Nat)) :
    List Nat → List (Nat × Nat) → Nat × Nat × Nat → List (Nat × Nat) × (Nat × Nat × Nat)
  | [], newm, best => (newm, best)
  | j :: js, newm, best =>
    if j < blo then flmInner blo bhi i prev js newm best
    else if bhi ≤ j then (newm, best)
    else
      let k := (if j = 0 then 0 else j2lenGet prev (j - 1)) + 1
      -- Python computes `i-k+1` and `j-k+1`; a length-`k` run ending at `(i, j)`
      -- has `k ≤ i + 1` and `k ≤ j + 1`, so the truncation-free forms below agree
      let newBest := if k > best.2.2 then (i + 1 - k, j + 1 - k, k) else best
      flmInner blo bhi i prev js ((j, k) :: newm) newBest

/-- The row loop of `find_longest_match` over `i in range(alo, ahi)`. -/
def flmMain (a b : List Char) (alo ahi blo bhi : Nat) : Nat × Nat × Nat :=
  ((List.range' alo (ahi - alo)).foldl
    (fun acc i => flmInner blo bhi i acc.1 (seqB2j b (a.getD i ' ')) [] acc.2)
    ([], (alo, blo, 0))).2

/-- The downward non-junk extension loop of `find_longest_match`; fuel
`besti` bounds the iterations, which decrement `besti` while above `alo`. -/
def flmExtendLow (a b : List Char) (alo blo : Nat) :
    Nat → Nat → Nat → Nat → Nat × Nat × Nat
  | 0, besti, bestj, bestsize => (besti, bestj, bestsize)
  | fuel + 1, besti, bestj, bestsize =>
    if alo < besti ∧ blo < bestj ∧ a.getD (besti - 1) ' ' = b.getD (bestj - 1) ' ' then
      flmExtendLow a b alo blo fuel (besti - 1) (bestj - 1) (bestsize + 1)
    else (besti, bestj, bestsize)

/-- The upward non-junk extension loop of `find_longest_match`; fuel `ahi`
bounds the iterations, which grow `besti + bestsize` toward `ahi`. -/
def flmExtendHigh (a b : List Char) (ahi bhi : Nat) :
    Nat → Nat → Nat → Nat → Nat × Nat × Nat
  | 0, besti, bestj, bestsize => (besti, bestj, bestsize)
  | fuel + 1, besti, bestj, bestsize =>
    if besti + bestsize < ahi ∧ bestj + bestsize < bhi ∧
        a.getD (besti + bestsize) ' ' = b.getD (bestj + bestsize) ' ' then
      flmExtendHigh a b ahi bhi fuel besti bestj (bestsize + 1)
    else (besti, bestj, bestsize)

/-- difflib `find_longest_match` with `isjunk=None`: dynamic-programming
scan plus the non-junk extension loops (the junk extension loops are
no-ops since the junk set is empty). -/
def find_longest_match (a b : List Char) (alo ahi blo bhi : Nat) : Nat × Nat × Nat :=
  let m := flmMain a b alo ahi blo bhi
  let m2 := flmExtendLow a b alo blo m.1 m.1 m.2.1 m.2.2
  flmExtendHigh a b ahi bhi ahi m2.1 m2.2.1 m2.2.2

/-- Total size of all matching blocks, the `M` of `SequenceMatcher
.ratio()`: the recursive splitting of `get_matching_blocks`. Fuel one more
than the combined interval length always suffices, since each level either
stops or splits into strictly smaller intervals. -/
def matchingTotal (a b : List Char) : Nat → Nat × Nat × Nat × Nat → Nat
  | 0, _ => 0
  | fuel + 1, (alo, ahi, blo, bhi) =>
    let r := find_longest_match a b alo ahi blo bhi
    let i := r.1
    let j := r.2.1
    let k := r.2.2
    if k = 0 then 0
    else
      k + (if alo < i ∧ blo < j then matchingTotal a b fuel (alo, i, blo, j) else 0)
        + (if i + k < ahi ∧ j + k < bhi then matchingTotal a b fuel (i + k, ahi, j + k, bhi) else 0)

/-- `SequenceMatcher(None, a, b).ratio()`: `2 * M / T`, or 1 when both
sequences are empty; computed in exact rational arithmetic. -/
def similarity (a b : String) : ℚ :=
  let la := a.data.length
  let lb := b.data.length
  let m := matchingTotal a.data b.data (la + lb + 1) (0, la, 0, lb)
  if la + lb = 0 then 1 else 2 * (m : ℚ) / ((la + lb : Nat) : ℚ)

/-- `_relevance_score`: reads the module-level global `name` (not the
query passed to `search_scenes_by_name`); when that global is unbound the
lookup raises `NameError`, modelled as `none`. -/
def _relevance_score (globalName : Option String) (scene : SearchResult) : Option ℚ :=
  match globalName with
  | none => none
  | some n => some (similarity (pyLower n) (pyLower scene.title) * 1000)

/-- `search_scenes_by_name`: strip the name, run the paging search, then
`results.sort(key=_relevance_score, reverse=True)`. CPython's sort
precomputes all keys, so when the global `name` is unbound the `NameError`
leaves the list untouched, is caught by the surrounding `except`, and the
fetch-order list is returned; when the global is bound the sort is a
stable descending sort by key (modelled with `mergeSort`). -/
def search_scenes_by_name (globalName : Option String) (site : Site) (name : String) :
    List SearchResult :=
  if name = "" then []
  else
    let name := pyStrip name
    if name = "" then []
    else
      let results := _search site name name 5
      match globalName with
      | none => results
      | some g =>
        results.mergeSort (fun x y =>
          decide (similarity (pyLower g) (pyLower y.title) * 1000 ≤
                  similarity (pyLower g) (pyLower x.title) * 1000))

/-- Strategy 1 of `extract_image`: og:image meta content, skipping empty
or bare-directory URLs, with the `-Nx.jpg` quality upgraded to 4x; the
result is returned without normalization. -/
def ogSubstAt (l : List Char) : Option (List Char) :=
  if "/meanbitches/content/contentthumbs/".data.isPrefixOf l then
    let after := l.drop "/meanbitches/content/contentthumbs/".data.length
    if 7 ≤ after.length then
      let mid := after.take (after.length - 7)
      let sfx := after.drop (after.length - 7)
      if (sfx = "-1x.jpg".data ∨ sfx = "-2x.jpg".data ∨ sfx = "-3x.jpg".data ∨
          sfx = "-4x.jpg".data) ∧ mid.all (fun c => c ≠ '\n') then
        some ("/content//contentthumbs/".data ++ mid ++ "-4x.jpg".data)
      else none
    else none
  else none

/-- `re.sub` of `/meanbitches/content/contentthumbs/(.*)-[1234]x\.jpg$`:
the leftmost end-anchored match is replaced, text before it is kept, and
an unmatched URL passes through unchanged. -/
def ogSubScan : List Char → List Char
  | [] => []
  | c :: rest =>
    match ogSubstAt (c :: rest) with
    | some repl => repl
    | none => c :: ogSubScan rest

/-- The quality-upgrade substitution applied to the og:image URL. -/
def ogUpgrade (url : String) : String := String.mk (ogSubScan url.data)

/-- Strategy 1 of `extract_image` as a function of the parsed document. -/
def ogImageStrategy (d : ParsedDoc) : Option String :=
  match d.ogImageContent with
  | none => none
  | some content =>
    if pyStrip content ≠ "" ∧ ¬ (pyEndsWith (pyStrip content) "contentthumbs/") then
      if ogUpgrade (pyStrip content) ≠ "" then some (ogUpgrade (pyStrip content)) else none
    else none

/-- Strategy 2 of `extract_image`: the dvd_preview_thumb src, normalized. -/
def previewThumbStrategy (d : ParsedDoc) : Option String :=
  match d.previewThumbSrc with
  | none => none
  | some src =>
    if pyStrip src ≠ "" then some ((normalize_url (pyStrip src)).getD (pyStrip src)) else none

/-- Strategy 3 of `extract_image`: borrow the image of the first search
result for the page's own title, returned exactly as stored there. -/
def borrowedSearchStrategy (search : String → List SearchResult)
    (title : Option String) : Option String :=
  match title with
  | some t =>
    if t ≠ "" then
      match search t with
      | [] => none
      | r :: _ => optTruthy r.image
    else none
  | none => none

/-- Match of `thumbnail:\s*"([^"]*\.jpg)"` anchored at the start of `l`:
literal, greedy whitespace, quote, a quote-free group that must end in
`.jpg`, closing quote. -/
def jsThumbAt (l : List Char) : Option (List Char) :=
  if "thumbnail:".data.isPrefixOf l then
    let after := (l.drop "thumbnail:".data.length).dropWhile pySpace
    match after with
    | '"' :: rest =>
      let content := rest.takeWhile (fun c => c ≠ '"')
      if (rest.drop content.length).head? = some '"' ∧
          pyEndsWith (String.mk content) ".jpg" then some content
      else none
    | _ => none
  else none

/-- Leftmost `re.search` scan for the script thumbnail pattern. -/
def jsThumbScan : List Char → Option (List Char)
  | [] => none
  | c :: rest =>
    match jsThumbAt (c :: rest) with
    | some g => some g
    | none => jsThumbScan rest

/-- Strategy 4 of `extract_image`: movie thumbnail from the embedded
JavaScript, normalized. -/
def scriptThumbStrategy (raw : String) : Option String :=
  match jsThumbScan raw.data with
  | none => none
  | some g =>
    if pyStrip (String.mk g) ≠ "" then
      some ((normalize_url (pyStrip (String.mk g))).getD (pyStrip (String.mk g)))
    else none

/-- `extract_image`: the four strategies in order, inside the catch-all
guard; the search dependency of strategy 3 is an explicit parameter. -/
def extract_image (search : String → List SearchResult) (p : Page) :
    Except PyErr (Option String) :=
  pyTryD none (do
    let d ← soupParse p
    match ogImageStrategy d with
    | some u => return some u
    | none =>
      match previewThumbStrategy d with
      | some u => return some u
      | none => do
        let title ← extract_title p
        match borrowedSearchStrategy search title with
        | some u => return some u
        | none => return scriptThumbStrategy d.raw)

/-- The studio sub-record of a scraped scene. -/
structure SceneStudio where
  name : Option String := none
  url : Option String := none
  deriving DecidableEq, Repr

/-- A scraped scene record; `none` models an absent key. -/
structure SceneRecord where
  url : Option String := none
  title : Option String := none
  details : Option String := none
  studio : Option SceneStudio := none
  performers : Option (List String) := none
  image : Option String := none
  date : Option String := none
  tags : Option (List String) := none
  code : Option String := none
  director : Option String := none
  deriving DecidableEq, Repr

/-- `if title := extract_title(...): ret["title"] = title`. -/
def withTitle (r : SceneRecord) (t : Option String) : SceneRecord :=
  match optTruthy t with
  | some v => { r with title := some v }
  | none => r

/-- `if details := extract_details(...): ret["details"] = details`. -/
def withDetails (r : SceneRecord) (t : Option String) : SceneRecord :=
  match optTruthy t with
  | some v => { r with details := some v }
  | none => r

/-- The studio block of `scrapeSceneURL`: the name key only when truthy,
the fixed url key always, the whole dict kept when non-empty (it always
is, since the url key is set unconditionally). -/
def withStudio (r : SceneRecord) (sn : Option String) : SceneRecord :=
  let studio : SceneStudio := { name := optTruthy sn, url := some "https://www.meanbitches.com/" }
  if studio.name.isSome ∨ studio.url.isSome then { r with studio := some studio } else r

/-- `if performers := extract_performers(...): ret["performers"] = performers`. -/
def withPerformers (r : SceneRecord) (ps : List String) : SceneRecord :=
  if ps ≠ [] then { r with performers := some ps } else r

/-- `if image := extract_image(...): ret["image"] = image`. -/
def withImage (r : SceneRecord) (t : Option String) : SceneRecord :=
  match optTruthy t with
  | some v => { r with image := some v }
  | none => r

/-- `if date := extract_date(...): ret["date"] = date`. -/
def withDate (r : SceneRecord) (t : Option String) : SceneRecord :=
  match optTruthy t with
  | some v => { r with date := some v }
  | none => r

/-- `if tags := extract_tags(...): ret["tags"] = tags`. -/
def withTags (r : SceneRecord) (ts : List String) : SceneRecord :=
  if ts ≠ [] then { r with tags := some ts } else r

/-- `if code := extract_studio_code(...): ret["code"] = code`. -/
def withCode (r : SceneRecord) (t : Option String) : SceneRecord :=
  match optTruthy t with
  | some v => { r with code := some v }
  | none => r

/-- `scrapeSceneURL`: fetch the page (errors propagate), run every field
extractor in order, keep truthy values, always build the studio dict, and
append the fixed director credit. -/
def scrapeSceneURL (search : String → List SearchResult)
    (fetch : String → Except PyErr Page) (url : String) : Except PyErr SceneRecord := do
  let html_content ← fetch url
  let ret : SceneRecord := { url := some url }
  let t ← extract_title html_content
  let ret := withTitle ret t
  let dts ← extract_details html_content
  let ret := withDetails ret dts
  let sn ← extract_studio_name html_content
  let ret := withStudio ret sn
  let perfs ← extract_performers html_content
  let ret := withPerformers ret perfs
  let img ← extract_image search html_content
  let ret := withImage ret img
  let dt ← extract_date html_content
  let ret := withDate ret dt
  let tg ← extract_tags html_content
  let ret := withTags ret tg
  let cd ← extract_studio_code html_content
  let ret := withCode ret cd
  return { ret with director := some "Glenn King" }

/-- A scene fragment, as handed to `_resolve_scene_fragment`. -/
structure Fragment where
  urls : Option (List String) := none
  url : Option String := none
  title : Option String := none
  file_name : Option String := none
  deriving DecidableEq, Repr

/-- The candidate list built by `_resolve_scene_fragment`: the `urls`
array first, then the main `url` when truthy and not already present. -/
def urlsToTry (f : Fragment) : List String :=
  let fromArr := f.urls.getD []
  match f.url with
  | some u => if u ≠ "" ∧ ¬ fromArr.contains u then fromArr ++ [u] else fromArr
  | none => fromArr

/-- The scheme gate of the candidate loop: truthy and starts with http. -/
def candidateEligible (u : String) : Bool := u ≠ "" && pyStartsWith u "http"

/-- The candidate-URL loop of `_resolve_scene_fragment`, instrumented with
the list of URLs a scrape (page fetch) was attempted for: ineligible or
foreign-host candidates are skipped, a raising or title-less scrape moves
on to the next candidate, a titled record ends the loop. -/
def tryCandidates (scrape : String → Except PyErr SceneRecord) :
    List String → Option SceneRecord × List String
  | [] => (none, [])
  | u :: rest =>
    if candidateEligible u then
      if ¬ (pyContains u "megasite.meanworld.com") then tryCandidates scrape rest
      else
        match scrape u with
        | .ok r =>
          if (optTruthy r.title).isSome then (some r, [u])
          else ((tryCandidates scrape rest).1, u :: (tryCandidates scrape rest).2)
        | .error _ => ((tryCandidates scrape rest).1, u :: (tryCandidates scrape rest).2)
    else tryCandidates scrape rest

/-- The fallback search title: the fragment's truthy `title`, else the
stem of its `file_name`. -/
def fallbackTitle (f : Fragment) : Option String :=
  match optTruthy f.title with
  | some t => some t
  | none =>
    match f.file_name with
    | some fn => extract_title_from_filename fn
    | none => none

/-- The search result chosen in the fallback phase: with
`prefer_exact_match` the first case-insensitive exact title match, else
the first result. -/
def chosenResult (prefer : Bool) (title : String) (r0 : SearchResult)
    (rs : List SearchResult) : SearchResult :=
  if prefer then ((r0 :: rs).find? (fun r => pyLower r.title = pyLower title)).getD r0
  else r0

/-- What `_resolve_scene_fragment` returns: a scraped record, or the
original fragment when resolution found nothing. -/
inductive Resolved
  | record (r : SceneRecord)
  | fragment (f : Fragment)
  deriving DecidableEq, Repr

/-- The search-fallback phase of `_resolve_scene_fragment`: search by
title and scrape the chosen result's URL with no exception guard, so a
scrape error propagates. -/
def searchPhase (scrape : String → Except PyErr SceneRecord)
    (search : String → List SearchResult) (frag : Fragment) (prefer : Bool) :
    Except PyErr Resolved :=
  match fallbackTitle frag with
  | none => .ok (.fragment frag)
  | some t =>
    match search t with
    | [] => .ok (.fragment frag)
    | r0 :: rs => (scrape (chosenResult prefer t r0 rs).url).map .record

/-- `_resolve_scene_fragment`: the guarded candidate-URL loop, then the
unguarded search fallback. -/
def _resolve_scene_fragment (scrape : String → Except PyErr SceneRecord)
    (search : String → List SearchResult) (frag : Fragment) (prefer : Bool) :
    Except PyErr Resolved :=
  match (tryCandidates scrape (urlsToTry frag)).1 with
  | some r => .ok (.record r)
  | none => searchPhase scrape search frag prefer

/-- `query_scene_fragment`: resolution without exact-match preference. -/
def query_scene_fragment (scrape : String → Except PyErr SceneRecord)
    (search : String → List SearchResult) (frag : Fragment) : Except PyErr Resolved :=
  _resolve_scene_fragment scrape search frag false

/-- `enrich_scene_fragment`: resolution preferring exact title matches. -/
def enrich_scene_fragment (scrape : String → Except PyErr SceneRecord)
    (search : String → List SearchResult) (frag : Fragment) : Except PyErr Resolved :=
  _resolve_scene_fragment scrape search frag true

namespace PerformerImageScraper

/-- Failures of the unguarded host interactions of the profile-image
updater: a `json.loads` error on stdin or a raising GraphQL call. These
abort the run before any result announcement. -/
inductive RunErr
  | jsonError
  | graphqlError
  deriving DecidableEq, Repr

/-- One performer node of the `findImage` GraphQL response. -/
structure PerformerInfo where
  id : Option String := none
  name : Option String := none
  deriving DecidableEq, Repr

/-- The `findImage` GraphQL payload: attached performers and the image
path (absent keys modelled as `none`; `dig` defaults `performers` to an
empty list). -/
structure ImageData where
  performers : Option (List PerformerInfo) := none
  imagePath : Option String := none
  deriving DecidableEq, Repr

/-- The host environment of one run: the image id dug out of the stdin
fragment (truthy values only), the image lookup, and the performer-update
mutation (its `Option` result reflects `dig(result, "performerUpdate")`
truthiness). -/
structure Env where
  stdinFragmentId : Except RunErr (Option String)
  findImage : String → Except RunErr (Option ImageData)
  updatePerformer : Option String → String → Except RunErr (Option Unit)

/-- The observable outcome of a completed run: what was printed, the exit
status, every performer mutation that was executed (performer id, image
url), and how many errors were logged. -/
structure Outcome where
  stdout : String
  exitCode : Nat
  updates : List (Option String × String)
  errorsLogged : Nat
  deriving DecidableEq, Repr

/-- `json.dumps` on the result dict; only `None`-replaced-by-`{}` and `{}`
itself reach this point, both printing the two-character empty object. -/
def jsonDumps (d : List (String × String)) : String :=
  if d.isEmpty then "\x7b\x7d" else "nonempty"

/-- `announce_result_to_stash`: `None` becomes the empty dict, the dump is
printed, and `sys.exit(0)` ends the process. -/
def announce_result_to_stash (updates : List (Option String × String))
    (errorsLogged : Nat) (result : Option (List (String × String))) : Outcome :=
  { stdout := jsonDumps (result.getD [])
    exitCode := 0
    updates := updates
    errorsLogged := errorsLogged }

/-- `main` of performer-image-scraper.py: every handled failure logs an
error and announces `None`; only a validated single-performer image
reaches the performer mutation, and a successful update announces `{}`.
`sys.exit` inside `announce_result_to_stash` stops the run, modelled by
returning the announced outcome. -/
def main (env : Env) : Except RunErr Outcome := do
  let image_id ← env.stdinFragmentId
  match image_id with
  | none => return announce_result_to_stash [] 1 none
  | some iid =>
    let image_data ← env.findImage iid
    match image_data with
    | none => return announce_result_to_stash [] 1 none
    | some data =>
      let performers := data.performers.getD []
      match optTruthy data.imagePath with
      | none => return announce_result_to_stash [] 1 none
      | some image_url =>
        if performers.length = 0 then
          return announce_result_to_stash [] 1 none
        else if performers.length > 1 then
          return announce_result_to_stash [] 1 none
        else do
          let performer := performers.headD {}
          let updated ← env.updatePerformer performer.id image_url
          match updated with
          | none => return announce_result_to_stash [(performer.id, image_url)] 1 none
          | some _ => return announce_result_to_stash [(performer.id, image_url)] 0 (some [])

end PerformerImageScraper

/-- The value a fallible extractor delivered, with a default for the
error case (extractors never actually err, as proved below). -/
def exVal {α : Type} (dflt : α) (e : Except PyErr α) : α :=
  match e with
  | .ok v => v
  | .error _ => dflt

/-- Claim-level reading of the exact-match test of the search page parser:
the container is not an info box, its first scene link with non-empty text
has a non-empty href, and that link's entity-decoded text equals the
search name case-insensitively. -/
def containerExactMatch (c : SearchContainer) (search_name : String) : Bool :=
  !c.isInfo &&
    match c.sceneLinks.find? (fun l => l.text ≠ "") with
    | some link =>
      !(link.href = "") && decide (pyLower (html_unescape link.text) = pyLower search_name)
    | none => false

/-- Claim-level scan for the first date-shaped token over the list items,
separated from the parse-or-keep handling of `dateFromLis`. -/
def firstDateToken : List String → Option String
  | [] => none
  | li :: rest =>
    match searchDate li.data with
    | some tok => some tok
    | none => firstDateToken rest

/-- Host component of a URL: the text between the `//` of the scheme and
the next slash (query and fragment stripped). -/
def urlHost (u : String) : String :=
  match (splitSlash u.data).drop 2 with
  | h :: _ => String.mk ((h.data.takeWhile (fun c => c ≠ '?')).takeWhile (fun c => c ≠ '#'))
  | [] => ""

/-- Search container holding one scene link titled `zz` (a low-relevance
result fetched first). -/
def contZZ : SearchContainer :=
  { sceneLinks := [{ href := "https://megasite.meanworld.com/scenes/other-scene_vids.html", text := "zz" }] }

/-- Search container holding one scene link titled `ab` (the exact match,
fetched second). -/
def contAB : SearchContainer :=
  { sceneLinks := [{ href := "https://megasite.meanworld.com/scenes/ab_vids.html", text := "ab" }] }

/-- A site whose every search page returns the `zz` container before the
`ab` container. -/
def siteC1 : Site := fun _ => .ok [contZZ, contAB]

/-- The parsed fragment for the `zz` container. -/
def resultZZ : SearchResult :=
  { title := "zz", url := "https://megasite.meanworld.com/scenes/other-scene_vids.html" }

/-- The parsed fragment for the `ab` container. -/
def resultAB : SearchResult :=
  { title := "ab", url := "https://megasite.meanworld.com/scenes/ab_vids.html" }

/-- A well-formed page on which every field extractor comes up empty. -/
def emptyPage : Page := Page.parsed {}

/-- A fetcher that returns `emptyPage` for every URL. -/
def emptyFetch : String → Except PyErr Page := fun _ => .ok emptyPage

/-- A search function that always returns no results. -/
def noResults : String → List SearchResult := fun _ => []

/-- A document whose only image source is a relative og:image path. -/
def relOgDoc : ParsedDoc := { ogImageContent := some "/foo.jpg" }

/-- A URL on a foreign host that contains `megasite.meanworld.com` only as
a query-string substring. -/
def evilUrl : String := "https://evil.example/page?ref=megasite.meanworld.com"

/-- A fragment whose only candidate URL is `evilUrl`. -/
def evilFragment : Fragment := { urls := some [evilUrl] }

/-- A scrape stub that fails on every URL. -/
def failingScrape : String → Except PyErr SceneRecord := fun _ => .error .netError

/-- A scrape stub that succeeds with a titled record on every URL. -/
def titledScrape : String → Except PyErr SceneRecord :=
  fun u => .ok { url := some u, title := some "Some Scene" }

/-- A parsed document with a single dated list item. -/
def datedDoc : ParsedDoc := { textMedLis := ["Added: 2/3/2004"] }

/-- A parsed document whose list item holds an impossible calendar date. -/
def badDateDoc : ParsedDoc := { textMedLis := ["Added: 2/30/2004"] }

/-- A fragment with a title but no usable URL. -/
def titledFragment : Fragment := { title := some "ab" }

/-- A search stub returning the two concrete results above. -/
def twoResults : String → List SearchResult := fun _ => [resultZZ, resultAB]

namespace PerformerImageScraper

/-- An environment whose image has two attached performers. -/
def envTwoPerformers : Env :=
  { stdinFragmentId := .ok (some "7")
    findImage := fun _ =>
      .ok (some { performers := some [{ id := some "p1", name := some "A" },
                                      { id := some "p2", name := some "B" }]
                  imagePath := some "/image/7" })
    updatePerformer := fun _ _ => .ok (some ()) }

/-- An environment whose image has exactly one attached performer and
whose update mutation succeeds. -/
def envOnePerformer : Env :=
  { stdinFragmentId := .ok (some "7")
    findImage := fun _ =>
      .ok (some { performers := some [{ id := some "p1", name := some "A" }]
                  imagePath := some "/image/7" })
    updatePerformer := fun _ _ => .ok (some ()) }

end PerformerImageScraper

/-- A document whose only image source is a relative preview thumbnail. -/
def previewDoc : ParsedDoc := { previewThumbSrc := some "/thumb.jpg" }

/-! Theorems. -/

/-- The catch-all guard always delivers a value: either the body's or the
fallback. -/
theorem pyTryD_isOk {α : Type} (fb : α) (x : Except PyErr α) :
    ∃ v, pyTryD fb x = Except.ok v := by
  cases x with
  | ok v => exact ⟨v, rfl⟩
  | error e => exact ⟨fb, rfl⟩

/-- C8: for every fetched document, malformed or not, each of the eight
field extractors returns normally (an `ok` value, never a propagated
exception). -/
theorem c8_extractors_never_raise (p : Page) (search : String → List SearchResult) :
    (∃ v, extract_title p = Except.ok v) ∧
    (∃ v, extract_details p = Except.ok v) ∧
    (∃ v, extract_studio_name p = Except.ok v) ∧
    (∃ v, extract_performers p = Except.ok v) ∧
    (∃ v, extract_image search p = Except.ok v) ∧
    (∃ v, extract_date p = Except.ok v) ∧
    (∃ v, extract_tags p = Except.ok v) ∧
    (∃ v, extract_studio_code p = Except.ok v) :=
  ⟨pyTryD_isOk _ _, pyTryD_isOk _ _, pyTryD_isOk _ _, pyTryD_isOk _ _,
   pyTryD_isOk _ _, pyTryD_isOk _ _, pyTryD_isOk _ _, pyTryD_isOk _ _⟩

/-- Bind of a success in the `Except` monad. -/
theorem exBind_ok {ε α β : Type} (a : α) (f : α → Except ε β) :
    (Except.ok a : Except ε α) >>= f = f a := rfl

/-- Bind of a failure in the `Except` monad. -/
theorem exBind_error {ε α β : Type} (e : ε) (f : α → Except ε β) :
    (Except.error e : Except ε α) >>= f = Except.error e := rfl

namespace PerformerImageScraper

/-- C10: every run of the profile-image updater that reaches a result
announcement — success or any handled failure — prints exactly the empty
JSON object and exits with status zero, so standard output cannot
distinguish a successful update from a no-op. -/
theorem c10_stdout_indistinguishable (env : Env) (o : Outcome)
    (h : main env = Except.ok o) : o.stdout = "\x7b\x7d" ∧ o.exitCode = 0 := by
  cases hid : env.stdinFragmentId with
  | error e => simp [main, hid, exBind_error] at h
  | ok oid =>
    cases oid with
    | none =>
      simp only [main, hid, exBind_ok, pure, Except.pure] at h
      cases h
      exact ⟨rfl, rfl⟩
    | some iid =>
      cases hfi : env.findImage iid with
      | error e => simp [main, hid, hfi, exBind_ok, exBind_error] at h
      | ok od =>
        cases od with
        | none =>
          simp only [main, hid, hfi, exBind_ok, pure, Except.pure] at h
          cases h
          exact ⟨rfl, rfl⟩
        | some data =>
          cases hiu : optTruthy data.imagePath with
          | none =>
            simp only [main, hid, hfi, hiu, exBind_ok, pure, Except.pure] at h
            cases h
            exact ⟨rfl, rfl⟩
          | some image_url =>
            by_cases h0 : (data.performers.getD []).length = 0
            · simp only [main, hid, hfi, hiu, h0, if_true, exBind_ok, pure, Except.pure, if_pos] at h
              cases h
              exact ⟨rfl, rfl⟩
            · by_cases h1 : (data.performers.getD []).length > 1
              · simp only [main, hid, hfi, hiu, exBind_ok, pure, Except.pure] at h
                rw [if_neg h0, if_pos h1] at h
                cases h
                exact ⟨rfl, rfl⟩
              · cases hup : env.updatePerformer ((data.performers.getD []).headD {}).id image_url with
                | error e =>
                  simp only [main, hid, hfi, hiu, exBind_ok, pure, Except.pure] at h
                  rw [if_neg h0, if_neg h1] at h
                  simp only [hup, exBind_error] at h
                  exact Except.noConfusion h
                | ok ou =>
                  cases ou with
                  | none =>
                    simp only [main, hid, hfi, hiu, exBind_ok, pure, Except.pure] at h
                    rw [if_neg h0, if_neg h1] at h
                    simp only [hup, exBind_ok] at h
                    cases h
                    exact ⟨rfl, rfl⟩
                  | some u =>
                    simp only [main, hid, hfi, hiu, exBind_ok, pure, Except.pure] at h
                    rw [if_neg h0, if_neg h1] at h
                    simp only [hup, exBind_ok] at h
                    cases h
                    exact ⟨rfl, rfl⟩

/-- Witness for C10 at a concrete succeeding environment: the announced
outcome prints the empty object with exit status zero. -/
theorem c10_witness :
    main envOnePerformer =
      Except.ok { stdout := "\x7b\x7d", exitCode := 0,
                  updates := [(some "p1", "/image/7")], errorsLogged := 0 } ∧
    ("\x7b\x7d" = "\x7b\x7d" ∧ (0 : Nat) = 0) := by
  refine ⟨rfl, ?_⟩
  exact c10_stdout_indistinguishable envOnePerformer _ rfl

/-- C9: a request whose image carries zero or several performers performs
no performer mutation, logs an error, prints the empty JSON object and
exits with status zero. -/
theorem c9_bad_performer_count (env : Env) (iid : String) (data : ImageData)
    (h1 : env.stdinFragmentId = Except.ok (some iid))
    (h2 : env.findImage iid = Except.ok (some data))
    (h3 : (data.performers.getD []).length ≠ 1) :
    ∃ o, main env = Except.ok o ∧ o.updates = [] ∧ o.stdout = "\x7b\x7d" ∧
      o.exitCode = 0 ∧ 1 ≤ o.errorsLogged := by
  cases hiu : optTruthy data.imagePath with
  | none =>
    refine ⟨announce_result_to_stash [] 1 none, ?_, rfl, rfl, rfl, Nat.le_refl 1⟩
    simp only [main, h1, h2, hiu, exBind_ok, pure, Except.pure]
  | some image_url =>
    by_cases h0 : (data.performers.getD []).length = 0
    · refine ⟨announce_result_to_stash [] 1 none, ?_, rfl, rfl, rfl, Nat.le_refl 1⟩
      simp only [main, h1, h2, hiu, exBind_ok, pure, Except.pure]
      rw [if_pos h0]
    · have hgt : (data.performers.getD []).length > 1 := by omega
      refine ⟨announce_result_to_stash [] 1 none, ?_, rfl, rfl, rfl, Nat.le_refl 1⟩
      simp only [main, h1, h2, hiu, exBind_ok, pure, Except.pure]
      rw [if_neg h0, if_pos hgt]

/-- Witness for C9 at the concrete two-performer environment. -/
theorem c9_witness :
    ∃ o, main envTwoPerformers = Except.ok o ∧ o.updates = [] ∧ o.stdout = "\x7b\x7d" ∧
      o.exitCode = 0 ∧ 1 ≤ o.errorsLogged :=
  c9_bad_performer_count envTwoPerformers "7"
    { performers := some [{ id := some "p1", name := some "A" },
                          { id := some "p2", name := some "B" }]
      imagePath := some "/image/7" }
    rfl rfl (by decide)

end PerformerImageScraper

/-- The guard either passes the body's ok value through or substitutes the
fallback, and `exVal` reads exactly that value back. -/
theorem pyTryD_eq_ok {α : Type} (fb : α) (x : Except PyErr α) :
    pyTryD fb x = Except.ok (exVal fb (pyTryD fb x)) := by
  cases x <;> rfl

/-- Reading a success back out of `exVal`. -/
theorem exVal_ok {α : Type} (fb v : α) : exVal fb (Except.ok v) = v := rfl

/-- `extract_title` always returns its own delivered value as a success. -/
theorem extract_title_ok (p : Page) :
    extract_title p = Except.ok (exVal none (extract_title p)) := pyTryD_eq_ok none _

/-- `extract_details` always returns a success. -/
theorem extract_details_ok (p : Page) :
    extract_details p = Except.ok (exVal none (extract_details p)) := pyTryD_eq_ok none _

/-- `extract_studio_name` always returns a success. -/
theorem extract_studio_name_ok (p : Page) :
    extract_studio_name p = Except.ok (exVal none (extract_studio_name p)) := pyTryD_eq_ok none _

/-- `extract_performers` always returns a success. -/
theorem extract_performers_ok (p : Page) :
    extract_performers p = Except.ok (exVal [] (extract_performers p)) := pyTryD_eq_ok [] _

/-- `extract_image` always returns a success. -/
theorem extract_image_ok (search : String → List SearchResult) (p : Page) :
    extract_image search p = Except.ok (exVal none (extract_image search p)) := pyTryD_eq_ok none _

/-- `extract_date` always returns a success. -/
theorem extract_date_ok (p : Page) :
    extract_date p = Except.ok (exVal none (extract_date p)) := pyTryD_eq_ok none _

/-- `extract_tags` always returns a success. -/
theorem extract_tags_ok (p : Page) :
    extract_tags p = Except.ok (exVal [] (extract_tags p)) := pyTryD_eq_ok [] _

/-- `extract_studio_code` always returns a success. -/
theorem extract_studio_code_ok (p : Page) :
    extract_studio_code p = Except.ok (exVal none (extract_studio_code p)) := pyTryD_eq_ok none _

/-- The title update writes the truthy title and nothing else. -/
theorem withTitle_eq (r : SceneRecord) (t : Option String) :
    withTitle r t = { r with title := (optTruthy t).or r.title } := by
  cases h : optTruthy t <;> simp [withTitle, h, Option.or]

/-- The details update writes the truthy details and nothing else. -/
theorem withDetails_eq (r : SceneRecord) (t : Option String) :
    withDetails r t = { r with details := (optTruthy t).or r.details } := by
  cases h : optTruthy t <;> simp [withDetails, h, Option.or]

/-- The studio update always stores the studio dict, since its url key is
set unconditionally. -/
theorem withStudio_eq (r : SceneRecord) (sn : Option String) :
    withStudio r sn =
      { r with studio := some { name := optTruthy sn, url := some "https://www.meanbitches.com/" } } := by
  simp [withStudio]

/-- The performers update stores only a non-empty list. -/
theorem withPerformers_eq (r : SceneRecord) (ps : List String) :
    withPerformers r ps = { r with performers := if ps = [] then r.performers else some ps } := by
  by_cases h : ps = [] <;> simp [withPerformers, h]

/-- The image update writes the truthy image and nothing else. -/
theorem withImage_eq (r : SceneRecord) (t : Option String) :
    withImage r t = { r with image := (optTruthy t).or r.image } := by
  cases h : optTruthy t <;> simp [withImage, h, Option.or]

/-- The date update writes the truthy date and nothing else. -/
theorem withDate_eq (r : SceneRecord) (t : Option String) :
    withDate r t = { r with date := (optTruthy t).or r.date } := by
  cases h : optTruthy t <;> simp [withDate, h, Option.or]

/-- The tags update stores only a non-empty list. -/
theorem withTags_eq (r : SceneRecord) (ts : List String) :
    withTags r ts = { r with tags := if ts = [] then r.tags else some ts } := by
  by_cases h : ts = [] <;> simp [withTags, h]

/-- The code update writes the truthy code and nothing else. -/
theorem withCode_eq (r : SceneRecord) (t : Option String) :
    withCode r t = { r with code := (optTruthy t).or r.code } := by
  cases h : optTruthy t <;> simp [withCode, h, Option.or]

/-- C1: evaluation of the code at the failing input. With the module
global `name` unbound — the state in every operation except
`searchScenes` — `search_scenes_by_name "ab"` returns the fetched results
in fetch order `[resultZZ, resultAB]`, although the claimed relevance
score of the second result (1000, an exact match) exceeds that of the
first (0): the output is not sorted in descending order of the ratio
between the lowercase query and the lowercase title. -/
theorem c1_global_name_divergence :
    search_scenes_by_name none siteC1 "ab" = [resultZZ, resultAB] ∧
    _relevance_score (some "ab") resultZZ = some 0 ∧
    _relevance_score (some "ab") resultAB = some 1000 := by
  refine ⟨rfl, ?_, ?_⟩
  · have h : matchingTotal "ab".data "zz".data ("ab".data.length + "zz".data.length + 1)
        (0, "ab".data.length, 0, "zz".data.length) = 0 := by decide
    have hs : similarity "ab" "zz" = 0 := by
      simp only [similarity, h]
      norm_num
    simp only [_relevance_score, resultZZ]
    rw [show pyLower "ab" = "ab" from rfl, show pyLower "zz" = "zz" from rfl, hs]
    norm_num
  · have h : matchingTotal "ab".data "ab".data ("ab".data.length + "ab".data.length + 1)
        (0, "ab".data.length, 0, "ab".data.length) = 2 := by decide
    have hs : similarity "ab" "ab" = 1 := by
      simp only [similarity, h]
      norm_num
    simp only [_relevance_score, resultAB]
    rw [show pyLower "ab" = "ab" from rfl, hs]
    norm_num

/-- C2 counterexample: on a page where no studio name (indeed no field at
all) is extracted, the scraped record still carries a studio entry holding
only the fixed studio url — the claim's "studio absent when no studio name
was extracted" fails. -/
theorem c2_studio_always_present :
    extract_studio_name emptyPage = Except.ok none ∧
    scrapeSceneURL noResults emptyFetch "https://megasite.meanworld.com/scenes/x_vids.html" =
      Except.ok { url := some "https://megasite.meanworld.com/scenes/x_vids.html"
                  studio := some { name := none, url := some "https://www.meanbitches.com/" }
                  director := some "Glenn King" } :=
  ⟨rfl, rfl⟩

/-- C2 amended: on every successfully fetched page, each metadata field of
the scraped record is present exactly when its extractor returned a truthy
value — except the studio field, which is always present, holding the
extracted name when there is one and the fixed studio url always — plus
the unconditional director credit and the input url. -/
theorem c2_amended (search : String → List SearchResult)
    (fetch : String → Except PyErr Page) (url : String) (p : Page)
    (hf : fetch url = Except.ok p) :
    scrapeSceneURL search fetch url = Except.ok
      { url := some url
        title := optTruthy (exVal none (extract_title p))
        details := optTruthy (exVal none (extract_details p))
        studio := some { name := optTruthy (exVal none (extract_studio_name p))
                         url := some "https://www.meanbitches.com/" }
        performers := if exVal [] (extract_performers p) = [] then none
                      else some (exVal [] (extract_performers p))
        image := optTruthy (exVal none (extract_image search p))
        date := optTruthy (exVal none (extract_date p))
        tags := if exVal [] (extract_tags p) = [] then none
                else some (exVal [] (extract_tags p))
        code := optTruthy (exVal none (extract_studio_code p))
        director := some "Glenn King" } := by
  simp only [scrapeSceneURL, hf, exBind_ok]
  rw [extract_title_ok p, extract_details_ok p, extract_studio_name_ok p,
    extract_performers_ok p, extract_image_ok search p, extract_date_ok p,
    extract_tags_ok p, extract_studio_code_ok p]
  simp only [exBind_ok, withTitle_eq, withDetails_eq, withStudio_eq, withPerformers_eq,
    withImage_eq, withDate_eq, withTags_eq, withCode_eq, Option.or_none, pure, Except.pure,
    exVal_ok]

/-- Witness for C2's amended claim at the concrete empty page. -/
theorem c2_amended_witness :
    scrapeSceneURL noResults emptyFetch "https://megasite.meanworld.com/scenes/y_vids.html" =
      Except.ok
        { url := some "https://megasite.meanworld.com/scenes/y_vids.html"
          title := optTruthy (exVal none (extract_title emptyPage))
          details := optTruthy (exVal none (extract_details emptyPage))
          studio := some { name := optTruthy (exVal none (extract_studio_name emptyPage))
                           url := some "https://www.meanbitches.com/" }
          performers := if exVal [] (extract_performers emptyPage) = [] then none
                        else some (exVal [] (extract_performers emptyPage))
          image := optTruthy (exVal none (extract_image noResults emptyPage))
          date := optTruthy (exVal none (extract_date emptyPage))
          tags := if exVal [] (extract_tags emptyPage) = [] then none
                  else some (exVal [] (extract_tags emptyPage))
          code := optTruthy (exVal none (extract_studio_code emptyPage))
          director := some "Glenn King" } :=
  c2_amended noResults emptyFetch "https://megasite.meanworld.com/scenes/y_vids.html"
    emptyPage rfl

/-- Candidate loop step: a candidate that is ineligible (empty or not
http-prefixed) or lacks the required-host substring is skipped outright —
no scrape, identical continuation. -/
theorem tryCandidates_cons_skip (scrape : String → Except PyErr SceneRecord)
    (v : String) (rest : List String)
    (h : ¬ (candidateEligible v = true ∧ pyContains v "megasite.meanworld.com" = true)) :
    tryCandidates scrape (v :: rest) = tryCandidates scrape rest := by
  by_cases he : candidateEligible v = true
  · have hd : ¬ pyContains v "megasite.meanworld.com" = true := fun hd => h ⟨he, hd⟩
    simp [tryCandidates, he, hd]
  · simp [tryCandidates, he]

/-- Candidate loop step: a raising scrape is recorded as an attempt and
the loop continues with the next candidate. -/
theorem tryCandidates_cons_error (scrape : String → Except PyErr SceneRecord)
    (v : String) (rest : List String) (e : PyErr)
    (he : candidateEligible v = true)
    (hd : pyContains v "megasite.meanworld.com" = true)
    (hs : scrape v = Except.error e) :
    tryCandidates scrape (v :: rest) =
      ((tryCandidates scrape rest).1, v :: (tryCandidates scrape rest).2) := by
  simp [tryCandidates, he, hd, hs]

/-- Candidate loop step: a scrape that returns a record without a truthy
title is likewise an attempt followed by continuation. -/
theorem tryCandidates_cons_untitled (scrape : String → Except PyErr SceneRecord)
    (v : String) (rest : List String) (r : SceneRecord)
    (he : candidateEligible v = true)
    (hd : pyContains v "megasite.meanworld.com" = true)
    (hs : scrape v = Except.ok r) (ht : optTruthy r.title = none) :
    tryCandidates scrape (v :: rest) =
      ((tryCandidates scrape rest).1, v :: (tryCandidates scrape rest).2) := by
  simp [tryCandidates, he, hd, hs, ht]

/-- Candidate loop step: a titled record terminates the loop at once. -/
theorem tryCandidates_cons_hit (scrape : String → Except PyErr SceneRecord)
    (v : String) (rest : List String) (r : SceneRecord)
    (he : candidateEligible v = true)
    (hd : pyContains v "megasite.meanworld.com" = true)
    (hs : scrape v = Except.ok r) (ht : (optTruthy r.title).isSome) :
    tryCandidates scrape (v :: rest) = (some r, [v]) := by
  simp [tryCandidates, he, hd, hs, ht]

/-- Every URL the candidate loop attempted a scrape for comes from the
candidate list, is http-prefixed and non-empty, and contains the
`megasite.meanworld.com` substring. -/
theorem tryCandidates_trace_spec (scrape : String → Except PyErr SceneRecord) :
    ∀ (l : List String) (u : String), u ∈ (tryCandidates scrape l).2 →
      u ∈ l ∧ candidateEligible u = true ∧ pyContains u "megasite.meanworld.com" = true := by
  intro l
  induction l with
  | nil => intro u hu; simp [tryCandidates] at hu
  | cons v vs ih =>
    intro u hu
    by_cases he : candidateEligible v = true
    · by_cases hd : pyContains v "megasite.meanworld.com" = true
      · cases hs : scrape v with
        | ok r =>
          cases ht : optTruthy r.title with
          | some w =>
            rw [tryCandidates_cons_hit scrape v vs r he hd hs (by simp [ht])] at hu
            simp at hu
            subst hu
            exact ⟨List.mem_cons_self _ _, he, hd⟩
          | none =>
            rw [tryCandidates_cons_untitled scrape v vs r he hd hs ht] at hu
            simp at hu
            rcases hu with rfl | hu
            · exact ⟨List.mem_cons_self _ _, he, hd⟩
            · obtain ⟨h1, h2, h3⟩ := ih u hu
              exact ⟨List.mem_cons_of_mem v h1, h2, h3⟩
        | error e =>
          rw [tryCandidates_cons_error scrape v vs e he hd hs] at hu
          simp at hu
          rcases hu with rfl | hu
          · exact ⟨List.mem_cons_self _ _, he, hd⟩
          · obtain ⟨h1, h2, h3⟩ := ih u hu
            exact ⟨List.mem_cons_of_mem v h1, h2, h3⟩
      · rw [tryCandidates_cons_skip scrape v vs (fun hc => hd hc.2)] at hu
        obtain ⟨h1, h2, h3⟩ := ih u hu
        exact ⟨List.mem_cons_of_mem v h1, h2, h3⟩
    · rw [tryCandidates_cons_skip scrape v vs (fun hc => he hc.1)] at hu
      obtain ⟨h1, h2, h3⟩ := ih u hu
      exact ⟨List.mem_cons_of_mem v h1, h2, h3⟩

/-- C5 amended: a candidate URL that is empty, not http-prefixed, or does
not contain the substring `megasite.meanworld.com` is skipped without a
fetch attempt (the loop result is that of the remaining candidates), and
no such URL ever appears among the attempted fetches. -/
theorem c5_amended :
    (∀ (scrape : String → Except PyErr SceneRecord) (u : String) (rest : List String),
        ¬ (candidateEligible u = true ∧ pyContains u "megasite.meanworld.com" = true) →
        tryCandidates scrape (u :: rest) = tryCandidates scrape rest) ∧
    (∀ (scrape : String → Except PyErr SceneRecord) (urls : List String) (u : String),
        u ∈ urls →
        ¬ (candidateEligible u = true ∧ pyContains u "megasite.meanworld.com" = true) →
        u ∉ (tryCandidates scrape urls).2) :=
  ⟨tryCandidates_cons_skip,
   fun scrape urls u _ hnot hin =>
     hnot ⟨(tryCandidates_trace_spec scrape urls u hin).2.1,
           (tryCandidates_trace_spec scrape urls u hin).2.2⟩⟩

/-- C5 counterexample: a candidate on the foreign host `evil.example`
whose query string contains `megasite.meanworld.com` as a substring does
not belong to the required host, yet the resolver attempts a fetch for it
— the substring test is not a host test. -/
theorem c5_foreign_host_fetch_attempted :
    urlHost evilUrl ≠ "megasite.meanworld.com" ∧
    (tryCandidates failingScrape (urlsToTry evilFragment)).2 = [evilUrl] :=
  ⟨by decide, rfl⟩

/-- Witness for C5's amended claim: a non-http candidate is skipped and
never attempted. -/
theorem c5_witness :
    tryCandidates failingScrape ["ftp://megasite.meanworld.com/x"] =
      tryCandidates failingScrape [] ∧
    "ftp://megasite.meanworld.com/x" ∉
      (tryCandidates failingScrape ["ftp://megasite.meanworld.com/x"]).2 :=
  ⟨c5_amended.1 failingScrape _ [] (by decide),
   c5_amended.2 failingScrape _ _ (List.mem_singleton.mpr rfl) (by decide)⟩

/-- C4: in the candidate phase a raising or title-less scrape just moves
resolution to the remaining candidates, but once the search phase has
chosen a result, an error raised while scraping that result's URL
propagates out of `_resolve_scene_fragment`. -/
theorem c4_search_phase_error_propagates :
    (∀ (scrape : String → Except PyErr SceneRecord) (u : String) (rest : List String)
        (e : PyErr) (r : SceneRecord),
        candidateEligible u = true → pyContains u "megasite.meanworld.com" = true →
        (scrape u = Except.error e ∨ (scrape u = Except.ok r ∧ optTruthy r.title = none)) →
        (tryCandidates scrape (u :: rest)).1 = (tryCandidates scrape rest).1) ∧
    (∀ (scrape : String → Except PyErr SceneRecord) (search : String → List SearchResult)
        (frag : Fragment) (prefer : Bool) (t : String) (r0 : SearchResult)
        (rs : List SearchResult) (e : PyErr),
        (tryCandidates scrape (urlsToTry frag)).1 = none →
        fallbackTitle frag = some t →
        search t = r0 :: rs →
        scrape (chosenResult prefer t r0 rs).url = Except.error e →
        _resolve_scene_fragment scrape search frag prefer = Except.error e) := by
  constructor
  · intro scrape u rest e r he hd hfail
    rcases hfail with hs | ⟨hs, ht⟩
    · rw [tryCandidates_cons_error scrape u rest e he hd hs]
    · rw [tryCandidates_cons_untitled scrape u rest r he hd hs ht]
  · intro scrape search frag prefer t r0 rs e h1 h2 h3 h4
    simp [_resolve_scene_fragment, h1, searchPhase, h2, h3, h4, Except.map]

/-- Witness for C4: a failing candidate just drops out of the loop, and a
failing scrape of the chosen search result fails the whole resolution. -/
theorem c4_witness :
    (tryCandidates failingScrape ["https://megasite.meanworld.com/scenes/a_vids.html"]).1 =
      (tryCandidates failingScrape []).1 ∧
    _resolve_scene_fragment failingScrape twoResults titledFragment false =
      Except.error PyErr.netError :=
  ⟨c4_search_phase_error_propagates.1 failingScrape _ [] PyErr.netError {}
     (by decide) (by decide) (Or.inl rfl),
   c4_search_phase_error_propagates.2 failingScrape twoResults titledFragment false
     "ab" resultZZ [resultAB] PyErr.netError rfl rfl rfl rfl⟩

/-- The parse-or-keep handling of the first found date token. -/
theorem dateFromLis_of_firstToken :
    ∀ (lis : List String) (tok : String), firstDateToken lis = some tok →
      dateFromLis lis = some (match strptime_mdY tok with
        | some (m, d, y) => strftime_Ymd y m d
        | none => tok) := by
  intro lis
  induction lis with
  | nil => intro tok h; simp [firstDateToken] at h
  | cons li rest ih =>
    intro tok h
    cases hs : searchDate li.data with
    | some t =>
      rw [firstDateToken, hs] at h
      cases h
      rw [dateFromLis, hs]
    | none =>
      rw [firstDateToken, hs] at h
      rw [dateFromLis, hs]
      exact ih tok h

/-- C6: when the date scan finds a `d{1,2}/d{1,2}/d{4}` token, a parseable
month/day/year is returned as zero-padded year-month-day, and a token the
parser rejects is returned raw — the field is never dropped on parse
failure. -/
theorem c6_date_normalization (d : ParsedDoc) (tok : String)
    (hfind : firstDateToken d.textMedLis = some tok) :
    (∀ m dd y, strptime_mdY tok = some (m, dd, y) →
        extract_date (Page.parsed d) =
          Except.ok (some (pad4 y ++ "-" ++ pad2 m ++ "-" ++ pad2 dd))) ∧
    (strptime_mdY tok = none → extract_date (Page.parsed d) = Except.ok (some tok)) := by
  have hext : extract_date (Page.parsed d) = Except.ok (dateFromLis d.textMedLis) := rfl
  have hd := dateFromLis_of_firstToken d.textMedLis tok hfind
  constructor
  · intro m dd y hp
    rw [hext, hd, hp]
    rfl
  · intro hp
    rw [hext, hd, hp]

/-- Witness for C6: a parseable token is normalized with zero padding and
an impossible calendar date (2/30/2004) is kept raw. -/
theorem c6_witness :
    extract_date (Page.parsed datedDoc) =
      Except.ok (some (pad4 2004 ++ "-" ++ pad2 2 ++ "-" ++ pad2 3)) ∧
    extract_date (Page.parsed badDateDoc) = Except.ok (some "2/30/2004") :=
  ⟨(c6_date_normalization datedDoc "2/3/2004" (by decide)).1 2 3 2004 (by decide),
   (c6_date_normalization badDateDoc "2/30/2004" (by decide)).2 (by decide)⟩

/-- A string that strips to empty consists of whitespace only. -/
theorem strip_empty_all_space (t : String) (h : pyStrip t = "") :
    ∀ c ∈ t.data, pySpace c = true := by
  intro c hc
  have hl : ((t.data.dropWhile pySpace).reverse.dropWhile pySpace).reverse = [] := by
    have := congrArg String.data h
    simpa [pyStrip] using this
  rw [List.reverse_eq_nil_iff] at hl
  have hall : ∀ x ∈ (t.data.dropWhile pySpace).reverse, pySpace x :=
    List.dropWhile_eq_nil_iff.mp hl
  have hall2 : ∀ x ∈ t.data.dropWhile pySpace, pySpace x := by
    intro x hx
    exact hall x (List.mem_reverse.mpr hx)
  rcases List.mem_append.mp
      (by rw [List.takeWhile_append_dropWhile (p := pySpace)]; exact hc :
        c ∈ t.data.takeWhile pySpace ++ t.data.dropWhile pySpace) with h1 | h2
  · exact List.mem_takeWhile_imp h1
  · exact hall2 c h2

/-- An all-whitespace string never starts with a slash. -/
theorem space_head_no_slash (t : String) (ht : t ≠ "")
    (h : ∀ c ∈ t.data, pySpace c = true) : pyStartsWith t "/" = false := by
  cases hd : t.data with
  | nil =>
    refine absurd ?_ ht
    apply String.ext
    rw [hd]
  | cons c rest =>
    have hc : pySpace c = true := h c (by rw [hd]; exact List.mem_cons_self _ _)
    have hne : ('/' == c) = false := by
      simp only [pySpace, Bool.or_eq_true, decide_eq_true_eq] at hc
      rcases hc with rfl | rfl | rfl | rfl <;> rfl
    rw [pyStartsWith, show ("/" : String).data = ['/'] from rfl, hd]
    simp [List.isPrefixOf, hne]

/-- Host-prefixed URLs start with the scheme, not with a slash. -/
theorem base_append_no_slash (x : String) :
    pyStartsWith (BASE_URL ++ x) "/" = false := by
  rw [pyStartsWith, String.data_append,
    show ("/" : String).data = ['/'] from rfl,
    show BASE_URL.data = 'h' :: ("ttps://megasite.meanworld.com" : String).data from rfl,
    List.cons_append]
  simp [List.isPrefixOf]

/-- The `normalize_url(t) or t` idiom never yields a slash-leading string:
slash-leading paths get the host prefix, everything else keeps its
non-slash head. -/
theorem norm_no_slash (t : String) (ht : t ≠ "") :
    pyStartsWith ((normalize_url t).getD t) "/" = false := by
  rw [normalize_url, if_neg ht]
  by_cases hsl : pyStartsWith (pyStrip t) "/" = true
  · rw [if_pos hsl]
    exact base_append_no_slash (pyStrip t)
  · rw [if_neg hsl]
    by_cases hu : pyStrip t = ""
    · rw [if_pos hu]
      exact space_head_no_slash t ht (strip_empty_all_space t hu)
    · rw [if_neg hu]
      simp only [Option.getD_some]
      cases h2 : pyStartsWith (pyStrip t) "/" with
      | false => rfl
      | true => exact absurd h2 hsl

/-- A URL delivered by the preview-thumb strategy never starts with a
slash. -/
theorem previewThumb_no_slash (d : ParsedDoc) (v : String)
    (h : previewThumbStrategy d = some v) : pyStartsWith v "/" = false := by
  unfold previewThumbStrategy at h
  cases hsrc : d.previewThumbSrc with
  | none => rw [hsrc] at h; exact absurd h (by simp)
  | some src =>
    simp only [hsrc] at h
    by_cases hne : pyStrip src ≠ ""
    · rw [if_pos hne] at h
      have hv : (normalize_url (pyStrip src)).getD (pyStrip src) = v := by
        injection h
      rw [← hv]
      exact norm_no_slash (pyStrip src) hne
    · rw [if_neg hne] at h
      exact absurd h (by simp)

/-- A URL delivered by the script-thumbnail strategy never starts with a
slash. -/
theorem scriptThumb_no_slash (raw : String) (v : String)
    (h : scriptThumbStrategy raw = some v) : pyStartsWith v "/" = false := by
  unfold scriptThumbStrategy at h
  cases hg : jsThumbScan raw.data with
  | none => rw [hg] at h; exact absurd h (by simp)
  | some g =>
    simp only [hg] at h
    by_cases hne : pyStrip (String.mk g) ≠ ""
    · rw [if_pos hne] at h
      have hv : (normalize_url (pyStrip (String.mk g))).getD (pyStrip (String.mk g)) = v := by
        injection h
      rw [← hv]
      exact norm_no_slash (pyStrip (String.mk g)) hne
    · rw [if_neg hne] at h
      exact absurd h (by simp)

/-- C7 amended: every URL `extract_image` returns comes from one of the
four strategies in order; the preview-thumbnail and script-embedded
strategies normalize slash-leading paths with the host prefix (their
output never starts with a slash), while the og-meta strategy returns the
(quality-upgraded) meta content and the borrowed-search strategy the
stored search image, both without normalization — those may be relative. -/
theorem c7_amended (search : String → List SearchResult) (p : Page) (u : String)
    (h : extract_image search p = Except.ok (some u)) :
    ∃ d, p = Page.parsed d ∧
      (ogImageStrategy d = some u ∨
       (ogImageStrategy d = none ∧ previewThumbStrategy d = some u ∧
         pyStartsWith u "/" = false) ∨
       (ogImageStrategy d = none ∧ previewThumbStrategy d = none ∧
         borrowedSearchStrategy search (exVal none (extract_title p)) = some u) ∨
       (ogImageStrategy d = none ∧ previewThumbStrategy d = none ∧
         borrowedSearchStrategy search (exVal none (extract_title p)) = none ∧
         scriptThumbStrategy d.raw = some u ∧ pyStartsWith u "/" = false)) := by
  cases p with
  | malformed raw =>
    have hm : extract_image search (Page.malformed raw) = Except.ok none := rfl
    rw [hm] at h
    simp at h
  | parsed d =>
    refine ⟨d, rfl, ?_⟩
    rw [extract_image] at h
    simp only [soupParse, exBind_ok] at h
    cases hog : ogImageStrategy d with
    | some v =>
      simp only [hog, pyTryD, pure, Except.pure] at h
      simp at h
      subst h
      exact Or.inl rfl
    | none =>
      simp only [hog] at h
      cases hprev : previewThumbStrategy d with
      | some v =>
        simp only [hprev, pyTryD, pure, Except.pure] at h
        simp at h
        subst h
        exact Or.inr (Or.inl ⟨rfl, rfl, previewThumb_no_slash d v hprev⟩)
      | none =>
        simp only [hprev] at h
        rw [extract_title_ok (Page.parsed d)] at h
        simp only [exBind_ok] at h
        cases hbor : borrowedSearchStrategy search
            (exVal none (extract_title (Page.parsed d))) with
        | some v =>
          simp only [hbor, pyTryD, pure, Except.pure] at h
          simp at h
          subst h
          exact Or.inr (Or.inr (Or.inl ⟨rfl, rfl, rfl⟩))
        | none =>
          simp only [hbor, pyTryD, pure, Except.pure] at h
          cases hscr : scriptThumbStrategy d.raw with
          | some v =>
            simp only [hscr] at h
            simp at h
            subst h
            exact Or.inr (Or.inr (Or.inr ⟨rfl, rfl, rfl, rfl,
              scriptThumb_no_slash d.raw v hscr⟩))
          | none =>
            simp only [hscr] at h
            simp at h

/-- C7 counterexample: a page whose og:image content is the relative path
`/foo.jpg` makes `extract_image` return that path unchanged — it starts
with a slash and carries no scheme, so the returned URL is not absolute
and was not host-prefixed. -/
theorem c7_og_relative_returned :
    extract_image noResults (Page.parsed relOgDoc) = Except.ok (some "/foo.jpg") ∧
    pyStartsWith "/foo.jpg" "/" = true ∧
    pyStartsWith "/foo.jpg" "http" = false :=
  ⟨rfl, rfl, rfl⟩

/-- Witness for C7's amended claim: a relative preview thumbnail comes
back host-prefixed through strategy two. -/
theorem c7_witness :
    ∃ d, (Page.parsed previewDoc) = Page.parsed d ∧
      (ogImageStrategy d = some "https://megasite.meanworld.com/thumb.jpg" ∨
       (ogImageStrategy d = none ∧
         previewThumbStrategy d = some "https://megasite.meanworld.com/thumb.jpg" ∧
         pyStartsWith "https://megasite.meanworld.com/thumb.jpg" "/" = false) ∨
       (ogImageStrategy d = none ∧ previewThumbStrategy d = none ∧
         borrowedSearchStrategy noResults (exVal none (extract_title (Page.parsed previewDoc))) =
           some "https://megasite.meanworld.com/thumb.jpg") ∨
       (ogImageStrategy d = none ∧ previewThumbStrategy d = none ∧
         borrowedSearchStrategy noResults (exVal none (extract_title (Page.parsed previewDoc))) =
           none ∧
         scriptThumbStrategy d.raw = some "https://megasite.meanworld.com/thumb.jpg" ∧
         pyStartsWith "https://megasite.meanworld.com/thumb.jpg" "/" = false)) :=
  c7_amended noResults (Page.parsed previewDoc) "https://megasite.meanworld.com/thumb.jpg" rfl

/-- The exact flag a container contributes equals the claim-level exact
match predicate. -/
theorem container_snd_eq (c : SearchContainer) (n : String) :
    (match containerToResult c n with
     | none => false
     | some p => p.2) = containerExactMatch c n := by
  unfold containerToResult containerExactMatch
  by_cases hi : c.isInfo
  · simp [hi]
  · simp only [hi, Bool.false_eq_true, if_false, Bool.not_false, Bool.true_and]
    cases hf : c.sceneLinks.find? (fun l => l.text ≠ "") with
    | none => simp
    | some link =>
      have htext : link.text ≠ "" := by
        have := List.find?_some hf
        simpa using this
      by_cases hh : link.href = ""
      · simp [hh]
      · simp [hh, htext]

/-- The container fold ORs together exactly the per-container exact
flags. -/
theorem foldStep_snd (n : String) :
    ∀ (cs : List SearchContainer) (acc : List SearchResult × Bool),
      (cs.foldl (fun acc c =>
          match containerToResult c n with
          | none => acc
          | some (r, ex) => (acc.1 ++ [r], acc.2 || ex)) acc).2 =
        (acc.2 || cs.any (fun c => containerExactMatch c n)) := by
  intro cs
  induction cs with
  | nil => intro acc; simp
  | cons c rest ih =>
    intro acc
    rw [List.foldl_cons, List.any_cons]
    cases hc : containerToResult c n with
    | none =>
      rw [ih]
      have := container_snd_eq c n
      rw [hc] at this
      rw [← this]
      simp
    | some p =>
      rw [ih]
      have := container_snd_eq c n
      rw [hc] at this
      rw [← this]
      simp [Bool.or_assoc]

/-- The container fold appends exactly the per-container results in
document order. -/
theorem foldStep_fst (n : String) :
    ∀ (cs : List SearchContainer) (acc : List SearchResult × Bool),
      (cs.foldl (fun acc c =>
          match containerToResult c n with
          | none => acc
          | some (r, ex) => (acc.1 ++ [r], acc.2 || ex)) acc).1 =
        acc.1 ++ cs.filterMap (fun c => (containerToResult c n).map Prod.fst) := by
  intro cs
  induction cs with
  | nil => intro acc; simp
  | cons c rest ih =>
    intro acc
    rw [List.foldl_cons, List.filterMap_cons]
    cases hc : containerToResult c n with
    | none => rw [ih]; simp
    | some p => rw [ih]; simp

/-- One search page parse: a fetch error degrades to an empty page, and a
fetched page yields its containers' results in order with the OR of their
exact-match flags. -/
theorem fpp_eq (site : Site) (q : String) (page : Nat) (n : String) :
    _fetch_and_parse_search_page site q page n =
      match site (mkSearchParams q page) with
      | .error _ => ([], false)
      | .ok cs => (cs.filterMap (fun c => (containerToResult c n).map Prod.fst),
                   cs.any (fun c => containerExactMatch c n)) := by
  unfold _fetch_and_parse_search_page
  cases hs : site (mkSearchParams q page) with
  | error e => rfl
  | ok cs =>
    by_cases he : cs.isEmpty
    · have hcs : cs = [] := List.isEmpty_iff.mp he
      subst hcs
      rfl
    · have h1 := foldStep_fst n cs ([], false)
      have h2 := foldStep_snd n cs ([], false)
      simp [he, Prod.ext_iff, h1, h2]

/-- The paging loop from any page with any budget: some prefix of `j`
consecutive pages is requested in order, results are their concatenation,
every non-final page was a full page without exact match, an early stop
happens only on an exact match or an empty page, and an exact match on
the first page stops immediately. -/
theorem searchLoop_spec (site : Site) (q n : String) :
    ∀ (left page : Nat), 0 < left →
      ∃ j, 1 ≤ j ∧ j ≤ left ∧
        (_searchLoop site q n page left).2 = (List.range' page j).map (mkSearchParams q) ∧
        (_searchLoop site q n page left).1 =
          ((List.range' page j).map
            (fun i => (_fetch_and_parse_search_page site q i n).1)).flatten ∧
        (∀ i, page ≤ i → i + 1 < page + j →
          (_fetch_and_parse_search_page site q i n).2 = false ∧
          (_fetch_and_parse_search_page site q i n).1 ≠ []) ∧
        (j < left →
          (_fetch_and_parse_search_page site q (page + j - 1) n).2 = true ∨
          (_fetch_and_parse_search_page site q (page + j - 1) n).1 = []) ∧
        ((_fetch_and_parse_search_page site q page n).2 = true → j = 1) := by
  intro left
  induction left with
  | zero => intro page h; omega
  | succ l ih =>
    intro page _
    cases hex : (_fetch_and_parse_search_page site q page n).2 with
    | true =>
      refine ⟨1, Nat.le_refl 1, by omega, ?_, ?_, ?_, ?_, fun _ => rfl⟩
      · rw [_searchLoop, hex]
        simp [List.range']
      · rw [_searchLoop, hex]
        simp [List.range']
      · intro i h1 h2; omega
      · intro _
        left
        simpa using hex
    | false =>
      by_cases hpr : (_fetch_and_parse_search_page site q page n).1.isEmpty
      · refine ⟨1, Nat.le_refl 1, by omega, ?_, ?_, ?_, ?_, fun hcon => rfl⟩
        · rw [_searchLoop, hex, if_neg (by simp), if_pos hpr]
          simp [List.range']
        · rw [_searchLoop, hex, if_neg (by simp), if_pos hpr]
          have : (_fetch_and_parse_search_page site q page n).1 = [] :=
            List.isEmpty_iff.mp hpr
          simp [List.range', this]
        · intro i h1 h2; omega
        · intro _
          right
          simpa using List.isEmpty_iff.mp hpr
      · rcases Nat.eq_zero_or_pos l with rfl | hlpos
        · refine ⟨1, Nat.le_refl 1, by omega, ?_, ?_, ?_, ?_, fun hcon => rfl⟩
          · rw [_searchLoop, hex, if_neg (by simp), if_neg hpr]
            rw [show _searchLoop site q n (page + 1) 0 = ([], []) from rfl]
            simp [List.range']
          · rw [_searchLoop, hex, if_neg (by simp), if_neg hpr]
            rw [show _searchLoop site q n (page + 1) 0 = ([], []) from rfl]
            simp [List.range']
          · intro i h1 h2; omega
          · intro hcon; omega
        · obtain ⟨j, hj1, hj2, htr, hres, hmid, hlast, hfirst⟩ :=
            ih (page + 1) hlpos
          refine ⟨j + 1, by omega, by omega, ?_, ?_, ?_, ?_, ?_⟩
          · rw [_searchLoop, hex, if_neg (by simp), if_neg hpr]
            simp [htr, List.range'_succ]
          · rw [_searchLoop, hex, if_neg (by simp), if_neg hpr]
            simp [hres, List.range'_succ]
          · intro i h1 h2
            rcases Nat.eq_or_lt_of_le h1 with rfl | hgt
            · refine ⟨hex, ?_⟩
              intro hnil
              rw [hnil] at hpr
              exact hpr rfl
            · exact hmid i (by omega) (by omega)
          · intro hlt
            have heq : page + 1 + j - 1 = page + (j + 1) - 1 := by omega
            rw [← heq]
            exact hlast (by omega)
          · intro hcon
            exact absurd hcon (by simp [hex])

/-- C3: for every query the search requests pages 1..k for some k at most
5, in order, omitting the page parameter exactly on page 1; a page's
exact flag is set exactly when one of its containers' decoded titles
equals the query case-insensitively; paging stops early only on an exact
match or an empty page; the result is the concatenation of the per-page
results in fetch order; and an exact match on page 1 means only page 1 is
fetched. -/
theorem c3_search_paging (site : Site) (q : String) :
    ∃ k, 1 ≤ k ∧ k ≤ 5 ∧
      mkSearchParams q 1 = { query := q, page := none } ∧
      (∀ i, 2 ≤ i → mkSearchParams q i = { query := q, page := some i }) ∧
      _searchRequests site q q 5 = (List.range' 1 k).map (mkSearchParams q) ∧
      _search site q q 5 =
        ((List.range' 1 k).map (fun i => (_fetch_and_parse_search_page site q i q).1)).flatten ∧
      (∀ i cs, site (mkSearchParams q i) = Except.ok cs →
        (_fetch_and_parse_search_page site q i q).2 =
          cs.any (fun c => containerExactMatch c q)) ∧
      (∀ i, 1 ≤ i → i + 1 < 1 + k →
        (_fetch_and_parse_search_page site q i q).2 = false ∧
        (_fetch_and_parse_search_page site q i q).1 ≠ []) ∧
      (k < 5 →
        (_fetch_and_parse_search_page site q k q).2 = true ∨
        (_fetch_and_parse_search_page site q k q).1 = []) ∧
      ((_fetch_and_parse_search_page site q 1 q).2 = true → k = 1) := by
  obtain ⟨j, hj1, hj2, htr, hres, hmid, hlast, hfirst⟩ :=
    searchLoop_spec site q q 5 1 (by omega)
  refine ⟨j, hj1, hj2, rfl, ?_, htr, hres, ?_, hmid, ?_, hfirst⟩
  · intro i hi
    rw [mkSearchParams, if_pos (by omega : i > 1)]
  · intro i cs hcs
    rw [fpp_eq site q i q, hcs]
  · intro hlt
    have heq : 1 + j - 1 = j := by omega
    rw [← heq]
    exact hlast hlt

/-- Witness for C3 at the concrete two-container site. -/
theorem c3_witness :
    ∃ k, 1 ≤ k ∧ k ≤ 5 ∧
      mkSearchParams "ab" 1 = { query := "ab", page := none } ∧
      (∀ i, 2 ≤ i → mkSearchParams "ab" i = { query := "ab", page := some i }) ∧
      _searchRequests siteC1 "ab" "ab" 5 = (List.range' 1 k).map (mkSearchParams "ab") ∧
      _search siteC1 "ab" "ab" 5 =
        ((List.range' 1 k).map
          (fun i => (_fetch_and_parse_search_page siteC1 "ab" i "ab").1)).flatten ∧
      (∀ i cs, siteC1 (mkSearchParams "ab" i) = Except.ok cs →
        (_fetch_and_parse_search_page siteC1 "ab" i "ab").2 =
          cs.any (fun c => containerExactMatch c "ab")) ∧
      (∀ i, 1 ≤ i → i + 1 < 1 + k →
        (_fetch_and_parse_search_page siteC1 "ab" i "ab").2 = false ∧
        (_fetch_and_parse_search_page siteC1 "ab" i "ab").1 ≠ []) ∧
      (k < 5 →
        (_fetch_and_parse_search_page siteC1 "ab" k "ab").2 = true ∨
        (_fetch_and_parse_search_page siteC1 "ab" k "ab").1 = []) ∧
      ((_fetch_and_parse_search_page siteC1 "ab" 1 "ab").2 = true → k = 1) :=
  c3_search_paging siteC1 "ab"
